import Mathlib

/-!
Verification of the contacts/chat/messaging backend (Fernando2706/back-a-p4)
against its natural-language specification.

Shallow embedding conventions:
* MongoDB ObjectId values are modelled as `Nat`; the store carries a counter
  `nextId` from which every freshly inserted document draws its id (ObjectIds
  are globally unique across collections, hence a single counter).
* `Date` values are modelled as `Nat` instants; each handler receives the
  current instant `now` as an argument.
* Saving a brand-new mongoose document is an insert (list append); saving a
  document previously fetched from the store is an update (replacement of the
  stored document with the same id).
* The mongoose unique index on `Contact.email` (src/src/schema/contact.ts:25,
  `unique: true`) makes any contact write that duplicates another contact's
  email fail with a duplicate-key error; a failed write leaves the store
  unchanged.
* mongoose setters (`trim`, `lowercase`) run when a field is assigned and on
  query filters, so they are applied at document construction / assignment
  sites and inside `findOne` filters.
* A store failure (connection loss etc.) inside a handler's `try` block is
  modelled by an optional `storeErr` argument: when it is `some e`, the first
  store access throws and control reaches the handler's `catch` with message
  `e`.
-/

/-- A zod field-level validation issue: `formatZodError` output shape
(src/src/router/contact.ts:12-17). -/
structure FieldError where
  field : String
  message : String
deriving DecidableEq, Repr

/-! ## Entities (mongoose schemas) -/

/-- Contact document (src/src/schema/contact.ts:16-48).  `email` is stored
lowercased and trimmed by its setters; `createdAt` is immutable. -/
structure Contact where
  id : Nat
  name : String
  email : String
  phone : String
  chatId : Option Nat
  createdAt : Nat
  updatedAt : Nat
deriving DecidableEq, Repr

/-- Chat document (src/src/schema/chat.ts:33-64). -/
structure Chat where
  id : Nat
  contactId : Nat
  messageIds : List Nat
  lastMessage : Option Nat
  unreadCount : Nat
  isArchived : Bool
  createdAt : Nat
  updatedAt : Nat
deriving DecidableEq, Repr

/-- Message document (src/src/schema/message.ts:18-45). -/
structure Message where
  id : Nat
  chatId : Nat
  isContactMessage : Bool
  content : String
  timestamp : Nat
  createdAt : Nat
  updatedAt : Nat
deriving DecidableEq, Repr

/-- The document database: one list per collection plus the fresh-id counter. -/
structure Store where
  contacts : List Contact
  chats : List Chat
  messages : List Message
  nextId : Nat
deriving DecidableEq, Repr

/-! ## Validation layer (zod schemas)

Untyped JSON payloads are modelled as structures of `Option` fields (a `none`
field is absent from the payload).  ObjectId-valued strings are modelled as
`Nat` (the zod nonempty-string check on them is subsumed by presence).
-/

/-- Payload for `POST /contacts` and `PUT /contacts/:id`. -/
structure ContactPayload where
  name : Option String
  email : Option String
  phone : Option String
  chatId : Option Nat
deriving DecidableEq, Repr

/-- Typed output of `contactValidationSchema.parse`
(src/src/schema/contact.ts:6-11). -/
structure ContactInput where
  name : String
  email : String
  phone : String
  chatId : Option Nat
deriving DecidableEq, Repr

/-- Payload for `POST /messages`. -/
structure MsgPayload where
  chatId : Option Nat
  content : Option String
  isContactMessage : Option Bool
  timestamp : Option Nat
deriving DecidableEq, Repr

/-- Typed output of `messageValidationSchema.parse`
(src/src/schema/message.ts:5-13). -/
structure MessageInput where
  chatId : Nat
  content : String
  isContactMessage : Bool
  timestamp : Option Nat
deriving DecidableEq, Repr

/-- Payload for `POST /chats`. -/
structure ChatPayload where
  contactId : Option Nat
  messageIds : Option (List Nat)
  timestamp : Option Nat
deriving DecidableEq, Repr

/-- Typed output of `chatValidationSchema.parse` (src/src/schema/chat.ts:19-28). -/
structure ChatInput where
  contactId : Nat
  messageIds : List Nat
  timestamp : Option Nat
deriving DecidableEq, Repr

/-- Modelled from the spec: the RFC-shape email check performed by zod's
`z.string().email()` (library code, not part of this repository): a single
`@` separating a nonempty local part from a nonempty domain, no spaces. -/
def isValidEmail (e : String) : Bool :=
  let l := e.data
  l.count '@' == 1 &&
  l.all (fun ch => ch != ' ') &&
  decide (l.takeWhile (fun ch => ch ≠ '@') ≠ []) &&
  decide ((l.reverse.takeWhile (fun ch => ch ≠ '@')) ≠ [])

/-- The `^\d{9}$` phone regex of `contactValidationSchema`
(src/src/schema/contact.ts:9). -/
def phoneOk9 (s : String) : Bool :=
  s.length == 9 && s.data.all Char.isDigit

/-- The field issues `contactValidationSchema.parse` raises on a payload
(src/src/schema/contact.ts:6-11); zod collects issues for all fields. -/
def contactFieldErrs (p : ContactPayload) : List FieldError :=
  (match p.name with
   | none => [⟨"name", "Required"⟩]
   | some n =>
     if n.length < 2 then [⟨"name", "El nombre debe tener al menos 2 caracteres"⟩] else []) ++
  (match p.email with
   | none => [⟨"email", "Required"⟩]
   | some e =>
     if isValidEmail e then [] else [⟨"email", "Correo electronico no valido"⟩]) ++
  (match p.phone with
   | none => [⟨"phone", "Required"⟩]
   | some ph =>
     if phoneOk9 ph then [] else [⟨"phone", "El telefono debe tener 9 digitos"⟩])

/-- `contactValidationSchema.parse` (src/src/schema/contact.ts:6-11): either
the typed record or the list of field issues.  Pure: no store access. -/
def contactValidate (p : ContactPayload) : Except (List FieldError) ContactInput :=
  match contactFieldErrs p, p.name, p.email, p.phone with
  | [], some n, some e, some ph => .ok ⟨n, e, ph, p.chatId⟩
  | errs, _, _, _ => .error errs

/-- The field issues `messageValidationSchema.parse` raises
(src/src/schema/message.ts:5-13). -/
def msgFieldErrs (p : MsgPayload) : List FieldError :=
  (match p.chatId with
   | none => [⟨"chatId", "El ID del chat es obligatorio"⟩]
   | some _ => []) ++
  (match p.content with
   | none => [⟨"content", "Required"⟩]
   | some ctext =>
     if ctext.length < 1 then [⟨"content", "El contenido del mensaje no puede estar vacio"⟩] else [])

/-- `messageValidationSchema.parse` (src/src/schema/message.ts:5-13).  The
`coin` argument is the value of the `Math.random() > 0.5` draw performed by
the zod default of `isContactMessage` (message.ts:8); it is consumed only
when the payload omits that field.  Pure: no store access. -/
def messageValidate (p : MsgPayload) (coin : Bool) : Except (List FieldError) MessageInput :=
  match msgFieldErrs p, p.chatId, p.content with
  | [], some cid, some ctext => .ok ⟨cid, ctext, p.isContactMessage.getD coin, p.timestamp⟩
  | errs, _, _ => .error errs

/-- The field issues `chatValidationSchema.parse` raises
(src/src/schema/chat.ts:19-28). -/
def chatFieldErrs (p : ChatPayload) : List FieldError :=
  match p.contactId with
  | none => [⟨"contactId", "El ID del contacto es obligatorio"⟩]
  | some _ => []

/-- `chatValidationSchema.parse` (src/src/schema/chat.ts:19-28).
`messageIds` defaults to `[]`.  Pure: no store access. -/
def chatValidate (p : ChatPayload) : Except (List FieldError) ChatInput :=
  match chatFieldErrs p, p.contactId with
  | [], some cid => .ok ⟨cid, p.messageIds.getD [], p.timestamp⟩
  | errs, _ => .error errs

/-- Rendering of a thrown ZodError as the `error.message` string the message
route places in `details` (src/src/index.ts:110 of the message router). -/
def renderFieldErrors (errs : List FieldError) : String :=
  errs.foldl (fun acc e => acc ++ e.field ++ ": " ++ e.message ++ "; ") ""

/-! ## Store primitives -/

/-- `Contact.findById` (exact id match on the collection). -/
def findContact (s : Store) (id : Nat) : Option Contact :=
  s.contacts.find? (fun c => c.id == id)

/-- `Chat.findById`. -/
def findChat (s : Store) (id : Nat) : Option Chat :=
  s.chats.find? (fun c => c.id == id)

/-- `Message.findById` (used when populating `lastMessage`). -/
def findMessage (s : Store) (id : Nat) : Option Message :=
  s.messages.find? (fun m => m.id == id)

/-- `Contact.findOne with email filter` — the filter value has already gone
through the schema setters (trim + lowercase). -/
def findContactByEmail (s : Store) (e : String) : Option Contact :=
  s.contacts.find? (fun c => c.email == e)

/-- `Chat.findOne with contactId filter` (src/src/router/chat.routes.ts:46). -/
def findChatByContact (s : Store) (cid : Nat) : Option Chat :=
  s.chats.find? (fun c => c.contactId == cid)

/-- Updating a fetched document: replace the stored document carrying the same
id (mongoose `save` on a non-new document). -/
def upsertContact (c : Contact) : List Contact → List Contact
  | [] => [c]
  | o :: rest => if o.id == c.id then c :: rest else o :: upsertContact c rest

/-- Updating a fetched chat document. -/
def upsertChat (c : Chat) : List Chat → List Chat
  | [] => [c]
  | o :: rest => if o.id == c.id then c :: rest else o :: upsertChat c rest

/-- Whitespace trim of the mongoose `trim: true` setters, modelled over the
character list (library behaviour, not repository code). -/
def trimStr (s : String) : String :=
  ⟨((s.data.dropWhile Char.isWhitespace).reverse.dropWhile Char.isWhitespace).reverse⟩

/-- ASCII lowercasing over the character list (library behaviour of the
`lowercase: true` setter). -/
def lowerStr (s : String) : String := ⟨s.data.map Char.toLower⟩

/-- The email setter chain of the contact schema: `trim: true` and
`lowercase: true` (src/src/schema/contact.ts:26-27). -/
def normEmail (e : String) : String := lowerStr (trimStr e)

/-- The duplicate-key condition enforced by the unique index on
`Contact.email` (src/src/schema/contact.ts:25): some other stored contact
(different id) already holds the same email. -/
def emailConflict (l : List Contact) (c : Contact) : Bool :=
  l.any (fun o => o.id != c.id && o.email == c.email)

/-- A raw contact write: insert (new document) or update (fetched document),
failing with a duplicate-key error when the unique email index is violated.
A failed write leaves the store unchanged. -/
def contactRawSave (s : Store) (c : Contact) (isNew : Bool) : Except String Store :=
  if emailConflict s.contacts c then
    .error "E11000 duplicate key error"
  else
    .ok { s with contacts := if isNew then s.contacts ++ [c] else upsertContact c s.contacts }

/-- `contact.save()` with the schema middleware: the pre-save hook refreshes
`updatedAt` (src/src/schema/contact.ts:51-54); the post-save hook
(contact.ts:56-71) creates a Chat when the contact lacks a `chatId`, writes
the chat id back onto the contact and saves it again.  The re-entrant
post-save run triggered by that inner save is a no-op because `chatId` is now
set, so it is not unfolded.  On failure the store reached so far is returned
together with the error (no rollback spans the writes). -/
def contactSave (s : Store) (c : Contact) (now : Nat) (isNew : Bool) :
    Store × Except String Contact :=
  let c1 : Contact := { c with updatedAt := now }
  match contactRawSave s c1 isNew with
  | .error e => (s, .error e)
  | .ok s1 =>
    match c1.chatId with
    | some _ => (s1, .ok c1)
    | none =>
      let chat : Chat :=
        { id := s1.nextId, contactId := c1.id, messageIds := [], lastMessage := none,
          unreadCount := 0, isArchived := false, createdAt := now, updatedAt := now }
      let s2 : Store := { s1 with chats := s1.chats ++ [chat], nextId := s1.nextId + 1 }
      let c2 : Contact := { c1 with chatId := some chat.id, updatedAt := now }
      match contactRawSave s2 c2 false with
      | .error e => (s2, .error e)
      | .ok s3 => (s3, .ok c2)

/-- `chat.save()` on a fetched chat: the pre-save hook refreshes `updatedAt`
(src/src/schema/chat.ts:80-83); no unique constraint can fail. -/
def chatUpdate (s : Store) (c : Chat) (now : Nat) : Store :=
  { s with chats := upsertChat { c with updatedAt := now } s.chats }

/-- Generic insertion sort used to model the `sort` options of the read
queries; `le` is the comparator. -/
def insSorted {α : Type} (le : α → α → Bool) (a : α) : List α → List α
  | [] => [a]
  | x :: xs => if le a x then a :: x :: xs else x :: insSorted le a xs

/-- Generic insertion sort (see `insSorted`). -/
def insSort {α : Type} (le : α → α → Bool) : List α → List α
  | [] => []
  | x :: xs => insSorted le x (insSort le xs)

/-! ## Route handlers

Each handler returns a response value paired with the store after its side
effects.  A `.status` projection gives the HTTP status the route sets
(Elysia leaves the status at 200 when the handler never assigns
`set.status`).
-/

/-- Responses of `POST /contacts` (src/src/router/contact.ts:27-65). -/
inductive PostContactRes
  | created (data : Contact)
  | emailTaken (email : String)
  | validationErr (details : List FieldError)
  | otherErr (details : String)
deriving DecidableEq, Repr

/-- Status set by the `POST /contacts` handler: 201 on success, 409 for a
duplicate email, 400 for both branches of the catch (contact.ts:52). -/
def PostContactRes.status : PostContactRes → Nat
  | .created _ => 201
  | .emailTaken _ => 409
  | .validationErr _ => 400
  | .otherErr _ => 400

/-- `POST /contacts` (src/src/router/contact.ts:27-65): validate, reject a
registered email with 409, otherwise construct the document (schema setters
applied) and save it; the post-save hook provisions the chat.  Any exception
in the `try` block reaches the catch, which distinguishes only ZodErrors. -/
def postContact (s : Store) (p : ContactPayload) (now : Nat) (storeErr : Option String) :
    PostContactRes × Store :=
  match contactValidate p with
  | .error errs => (.validationErr errs, s)
  | .ok d =>
    match storeErr with
    | some e => (.otherErr e, s)
    | none =>
      -- Contact.findOne with the email filter; the lowercase/trim setters run
      -- on the filter value.
      match findContactByEmail s (normEmail d.email) with
      | some _ => (.emailTaken d.email, s)
      | none =>
        let c : Contact :=
          { id := s.nextId, name := trimStr d.name, email := normEmail d.email,
            phone := trimStr d.phone, chatId := d.chatId, createdAt := now, updatedAt := now }
        let s0 : Store := { s with nextId := s.nextId + 1 }
        match contactSave s0 c now true with
        | (s1, .ok c2) => (.created c2, s1)
        | (s1, .error e) => (.otherErr e, s1)

/-- Responses of `GET /contacts/:id` (src/src/router/contact.ts:218-221): the
handler returns the `findById` result directly and never assigns a status, so
even an unresolved id answers 200 (with a null body). -/
inductive GetContactRes
  | found (c : Contact)
  | nullBody
deriving DecidableEq, Repr

/-- Status of `GET /contacts/:id`: always the Elysia default 200. -/
def GetContactRes.status : GetContactRes → Nat
  | .found _ => 200
  | .nullBody => 200

/-- `GET /contacts/:id` (src/src/router/contact.ts:218-221): read-only. -/
def getContactById (s : Store) (id : Nat) : GetContactRes :=
  match findContact s id with
  | some c => .found c
  | none => .nullBody

/-- Responses of `PUT /contacts/:id` (src/src/router/contact.ts:265-280).
The handler has no try/catch: a ZodError or store error propagates to the
global `onError` (src/src/index.ts:45-49) which answers 500.  The not-found
branch returns an error body without assigning a status. -/
inductive PutContactRes
  | ok (c : Contact)
  | notFoundBody (id : Nat)
  | internal
deriving DecidableEq, Repr

/-- Status of `PUT /contacts/:id`: 200 for both the success and the
not-found body (no `set.status` assignment), 500 via the global handler. -/
def PutContactRes.status : PutContactRes → Nat
  | .ok _ => 200
  | .notFoundBody _ => 200
  | .internal => 500

/-- `PUT /contacts/:id` (src/src/router/contact.ts:265-280): parse, fetch,
assign `name`, `email`, `phone` (schema setters applied) and save.  The save
runs the same middleware as any contact save, including the chat-provisioning
post-save hook. -/
def putContact (s : Store) (id : Nat) (p : ContactPayload) (now : Nat) :
    PutContactRes × Store :=
  match contactValidate p with
  | .error _ => (.internal, s)
  | .ok d =>
    match findContact s id with
    | none => (.notFoundBody id, s)
    | some c =>
      let c1 : Contact :=
        { c with name := trimStr d.name, email := normEmail d.email, phone := trimStr d.phone }
      match contactSave s c1 now false with
      | (s1, .ok c2) => (.ok c2, s1)
      | (s1, .error _) => (.internal, s1)

/-- Responses of `DELETE /contacts/:id` (src/src/router/contact.ts:402-410):
the not-found branch returns an error body without assigning a status. -/
inductive DeleteContactRes
  | deleted (c : Contact)
  | notFoundBody (id : Nat)
deriving DecidableEq, Repr

/-- Status of `DELETE /contacts/:id`: always the Elysia default 200. -/
def DeleteContactRes.status : DeleteContactRes → Nat
  | .deleted _ => 200
  | .notFoundBody _ => 200

/-- `DELETE /contacts/:id` (src/src/router/contact.ts:402-410):
`findByIdAndDelete`, which runs no document middleware. -/
def deleteContact (s : Store) (id : Nat) : DeleteContactRes × Store :=
  match findContact s id with
  | none => (.notFoundBody id, s)
  | some c => (.deleted c, { s with contacts := s.contacts.filter (fun o => o.id != id) })

/-- `GET /contacts` (src/src/router/contact.ts:151-164): list sorted by
`createdAt` descending; read-only. -/
def getContacts (s : Store) : List Contact :=
  insSort (fun a b => Nat.ble b.createdAt a.createdAt) s.contacts

/-- Responses of `POST /chats` (src/src/router/chat.routes.ts:14-78). -/
inductive PostChatRes
  | created (data : Chat)
  | contactNotFound (contactId : Nat)
  | conflict (chatId : Nat)
  | validationErr (details : List FieldError)
  | otherErr (details : String)
deriving DecidableEq, Repr

/-- Status of `POST /chats`: 201 / 404 / 409 / 400 / 400. -/
def PostChatRes.status : PostChatRes → Nat
  | .created _ => 201
  | .contactNotFound _ => 404
  | .conflict _ => 409
  | .validationErr _ => 400
  | .otherErr _ => 400

/-- `POST /chats` (src/src/router/chat.routes.ts:14-78): requires an existing
contact (404) and no existing chat for it (409); `messageIds`, `unreadCount`
and `isArchived` are forced to their initial values. -/
def postChat (s : Store) (p : ChatPayload) (now : Nat) : PostChatRes × Store :=
  match chatValidate p with
  | .error errs => (.validationErr errs, s)
  | .ok d =>
    match findContact s d.contactId with
    | none => (.contactNotFound d.contactId, s)
    | some _ =>
      match findChatByContact s d.contactId with
      | some existing => (.conflict existing.id, s)
      | none =>
        let chat : Chat :=
          { id := s.nextId, contactId := d.contactId, messageIds := [], lastMessage := none,
            unreadCount := 0, isArchived := false, createdAt := now, updatedAt := now }
        (.created chat, { s with chats := s.chats ++ [chat], nextId := s.nextId + 1 })

/-- Responses of `GET /chats/:id` (src/src/router/chat.routes.ts:310-345).
`ok` carries the chat as returned (after the unread reset) and the populated
contact. -/
inductive GetChatRes
  | ok (chat : Chat) (contact : Option Contact)
  | notFound (id : Nat)
  | err (details : String)
deriving DecidableEq, Repr

/-- Status of `GET /chats/:id`: 200 / 404 / 500. -/
def GetChatRes.status : GetChatRes → Nat
  | .ok _ _ => 200
  | .notFound _ => 404
  | .err _ => 500

/-- `GET /chats/:id` (src/src/router/chat.routes.ts:310-345): fetch, then
reset `unreadCount` to 0 and save when it was positive, then return the
document — the returned object is built after the reset, so it carries
`unreadCount = 0`.  The population of the latest 50 messages is response
shaping only and is not modelled. -/
def getChatById (s : Store) (id : Nat) (now : Nat) : GetChatRes × Store :=
  match findChat s id with
  | none => (.notFound id, s)
  | some chat =>
    if 0 < chat.unreadCount then
      -- chat.unreadCount = 0; await chat.save() — the mutated document is
      -- saved and then returned (chat.routes.ts:329-338), so the response
      -- carries the already-reset counter and the refreshed updatedAt.
      (.ok { chat with unreadCount := 0, updatedAt := now } (findContact s chat.contactId),
       chatUpdate s { chat with unreadCount := 0 } now)
    else
      (.ok chat (findContact s chat.contactId), s)

/-- Responses of `DELETE /chats/:id` (src/src/router/chat.routes.ts:396-421). -/
inductive DeleteChatRes
  | deleted (c : Chat)
  | notFound (id : Nat)
  | err (details : String)
deriving DecidableEq, Repr

/-- Status of `DELETE /chats/:id`: 200 / 404 / 500. -/
def DeleteChatRes.status : DeleteChatRes → Nat
  | .deleted _ => 200
  | .notFound _ => 404
  | .err _ => 500

/-- `DELETE /chats/:id` (src/src/router/chat.routes.ts:396-421): deleting a
chat does not cascade to its messages. -/
def deleteChat (s : Store) (id : Nat) : DeleteChatRes × Store :=
  match findChat s id with
  | none => (.notFound id, s)
  | some c => (.deleted c, { s with chats := s.chats.filter (fun o => o.id != id) })

/-- One row of the `GET /chats` listing (src/src/router/chat.routes.ts:248-269):
the chat with its populated contact and last message. -/
structure ShapedChat where
  chat : Chat
  contact : Option Contact
  lastMessageDoc : Option Message
deriving DecidableEq, Repr

/-- `GET /chats` (src/src/router/chat.routes.ts:248-269): list sorted by
`updatedAt` descending with populated references; read-only. -/
def getChats (s : Store) : List ShapedChat :=
  (insSort (fun a b => Nat.ble b.updatedAt a.updatedAt) s.chats).map
    (fun c => ⟨c, findContact s c.contactId, c.lastMessage.bind (findMessage s)⟩)

/-- Responses of `POST /messages` (src/src/index.ts:70-112 of the message
router).  The catch branch does not distinguish ZodErrors from store errors:
both produce `err` with status 400 (index.ts:106-112). -/
inductive PostMessageRes
  | created (data : Message)
  | chatNotFound (chatId : Nat)
  | err (details : String)
deriving DecidableEq, Repr

/-- Status of `POST /messages`: 201 / 404 / 400 — every caught error,
including a store failure, is answered with 400. -/
def PostMessageRes.status : PostMessageRes → Nat
  | .created _ => 201
  | .chatNotFound _ => 404
  | .err _ => 400

/-- `POST /messages` (src/src/index.ts:70-112): validate, resolve the chat
(404 echoing the unknown id), save the message, then append its id to the
chat's `messageIds`, point `lastMessage` at it, increment `unreadCount` and
save the chat. -/
def postMessage (s : Store) (p : MsgPayload) (coin : Bool) (now : Nat)
    (storeErr : Option String) : PostMessageRes × Store :=
  match messageValidate p coin with
  | .error errs => (.err (renderFieldErrors errs), s)
  | .ok m =>
    match storeErr with
    | some e => (.err e, s)
    | none =>
      match findChat s m.chatId with
      | none => (.chatNotFound m.chatId, s)
      | some chat =>
        let msg : Message :=
          { id := s.nextId, chatId := m.chatId, isContactMessage := m.isContactMessage,
            content := trimStr m.content, timestamp := m.timestamp.getD now,
            createdAt := now, updatedAt := now }
        let s1 : Store := { s with messages := s.messages ++ [msg], nextId := s.nextId + 1 }
        let chat1 : Chat :=
          { chat with messageIds := chat.messageIds ++ [msg.id],
                      lastMessage := some msg.id, unreadCount := chat.unreadCount + 1 }
        (.created msg, chatUpdate s1 chat1 now)

/-- Responses of `GET /messages/chat/:chatId` (src/src/index.ts:273-301). -/
inductive GetMessagesRes
  | ok (count : Nat) (chatId : Nat) (data : List Message)
  | chatNotFound (chatId : Nat)
  | err (details : String)
deriving DecidableEq, Repr

/-- Status of `GET /messages/chat/:chatId`: 200 / 404 / 500. -/
def GetMessagesRes.status : GetMessagesRes → Nat
  | .ok _ _ _ => 200
  | .chatNotFound _ => 404
  | .err _ => 500

/-- `GET /messages/chat/:chatId` (src/src/index.ts:273-301): resolve the chat
(404), list its messages ascending by `createdAt`, and reset `unreadCount` to
0 (saving the chat) when it was positive. -/
def getMessagesByChat (s : Store) (chatId : Nat) (now : Nat) (storeErr : Option String) :
    GetMessagesRes × Store :=
  match storeErr with
  | some e => (.err e, s)
  | none =>
    match findChat s chatId with
    | none => (.chatNotFound chatId, s)
    | some chat =>
      let msgs := insSort (fun a b => Nat.ble a.createdAt b.createdAt)
        (s.messages.filter (fun m => m.chatId == chatId))
      if 0 < chat.unreadCount then
        (.ok msgs.length chatId msgs, chatUpdate s { chat with unreadCount := 0 } now)
      else
        (.ok msgs.length chatId msgs, s)

/-! ## The whole request surface as a step relation on stores -/

/-- One inbound request, covering every route of the system.  The
`storeErr` components inject a store failure into the corresponding
handler's `try` block; `coin` is the random draw of the `isContactMessage`
default. -/
inductive Req
  | rPostContact (p : ContactPayload) (storeErr : Option String)
  | rGetContacts
  | rGetContact (id : Nat)
  | rPutContact (id : Nat) (p : ContactPayload)
  | rDeleteContact (id : Nat)
  | rPostChat (p : ChatPayload)
  | rGetChats
  | rGetChat (id : Nat)
  | rDeleteChat (id : Nat)
  | rPostMessage (p : MsgPayload) (coin : Bool) (storeErr : Option String)
  | rGetChatMessages (chatId : Nat) (storeErr : Option String)

/-- The store reached after handling one request at instant `now`.
Read-only routes leave the store unchanged. -/
def step (s : Store) (now : Nat) : Req → Store
  | .rPostContact p e => (postContact s p now e).2
  | .rGetContacts => s
  | .rGetContact _ => s
  | .rPutContact id p => (putContact s id p now).2
  | .rDeleteContact id => (deleteContact s id).2
  | .rPostChat p => (postChat s p now).2
  | .rGetChats => s
  | .rGetChat id => (getChatById s id now).2
  | .rDeleteChat id => (deleteChat s id).2
  | .rPostMessage p coin e => (postMessage s p coin now e).2
  | .rGetChatMessages cid e => (getMessagesByChat s cid now e).2

/-- The email-uniqueness invariant: no two stored contacts share an email. -/
def EmailUnique (s : Store) : Prop :=
  s.contacts.Pairwise (fun a b => a.email ≠ b.email)

/-- Structural well-formedness of the contact collection: distinct ids and
every id below the fresh-id counter. -/
def ContactIdsOk (s : Store) : Prop :=
  s.contacts.Pairwise (fun a b => a.id ≠ b.id) ∧ ∀ c ∈ s.contacts, c.id < s.nextId

/-- Store well-formedness: email uniqueness plus contact-id sanity. -/
def StoreWF (s : Store) : Prop := EmailUnique s ∧ ContactIdsOk s

/-! ## Helper lemmas about the store primitives -/

/-- List-level well-formedness of a contact collection relative to the
fresh-id counter `n`. -/
def ContactsWF (l : List Contact) (n : Nat) : Prop :=
  l.Pairwise (fun a b => a.id ≠ b.id) ∧
  l.Pairwise (fun a b => a.email ≠ b.email) ∧
  ∀ c ∈ l, c.id < n

theorem storeWF_iff (s : Store) : StoreWF s ↔ ContactsWF s.contacts s.nextId := by
  unfold StoreWF EmailUnique ContactIdsOk ContactsWF
  tauto

theorem contactsWF_mono {l : List Contact} {n m : Nat}
    (h : ContactsWF l n) (hnm : n ≤ m) : ContactsWF l m :=
  ⟨h.1, h.2.1, fun c hc => lt_of_lt_of_le (h.2.2 c hc) hnm⟩

theorem emailConflict_false_forall {l : List Contact} {c : Contact}
    (h : emailConflict l c = false) :
    ∀ o ∈ l, o.id ≠ c.id → o.email ≠ c.email := by
  intro o ho hid he
  have htrue : emailConflict l c = true := by
    rw [emailConflict, List.any_eq_true]
    refine ⟨o, ho, ?_⟩
    rw [Bool.and_eq_true, bne_iff_ne, beq_iff_eq]
    exact ⟨hid, he⟩
  rw [h] at htrue
  exact Bool.false_ne_true htrue

theorem emailConflict_eq_false {l : List Contact} {c : Contact}
    (h : ∀ o ∈ l, o.id ≠ c.id → o.email ≠ c.email) : emailConflict l c = false := by
  rw [Bool.eq_false_iff]
  intro hcontra
  rw [emailConflict, List.any_eq_true] at hcontra
  obtain ⟨o, ho, hpred⟩ := hcontra
  rw [Bool.and_eq_true, bne_iff_ne, beq_iff_eq] at hpred
  exact h o ho hpred.1 hpred.2

theorem mem_upsertContact {x c : Contact} {l : List Contact}
    (h : x ∈ upsertContact c l) : x = c ∨ x ∈ l := by
  induction l with
  | nil => simpa [upsertContact] using h
  | cons o rest ih =>
    simp only [upsertContact] at h
    by_cases ho : (o.id == c.id)
    · rw [if_pos ho] at h
      rcases List.mem_cons.mp h with h1 | h1
      · exact .inl h1
      · exact .inr (List.mem_cons_of_mem _ h1)
    · rw [if_neg ho] at h
      rcases List.mem_cons.mp h with h1 | h1
      · exact .inr (h1 ▸ List.mem_cons_self o rest)
      · rcases ih h1 with h2 | h2
        · exact .inl h2
        · exact .inr (List.mem_cons_of_mem _ h2)

theorem self_mem_upsertContact (c : Contact) (l : List Contact) :
    c ∈ upsertContact c l := by
  induction l with
  | nil => simp [upsertContact]
  | cons o rest ih =>
    simp only [upsertContact]
    by_cases ho : (o.id == c.id)
    · simp [ho]
    · simp only [if_neg ho]
      exact List.mem_cons_of_mem _ ih

theorem find?_upsertContact (c : Contact) (l : List Contact) :
    (upsertContact c l).find? (fun o => o.id == c.id) = some c := by
  induction l with
  | nil => simp [upsertContact, List.find?]
  | cons o rest ih =>
    simp only [upsertContact]
    by_cases ho : (o.id == c.id)
    · rw [if_pos ho]
      exact List.find?_cons_of_pos _ (by simp)
    · rw [if_neg ho]
      rw [List.find?_cons_of_neg _ (by simpa using ho)]
      exact ih

theorem find?_upsertContact_of_id (c : Contact) (l : List Contact) (i : Nat)
    (h : c.id = i) :
    (upsertContact c l).find? (fun o => o.id == i) = some c := by
  subst h
  exact find?_upsertContact c l

theorem find?_upsertChat (c : Chat) (l : List Chat) :
    (upsertChat c l).find? (fun o => o.id == c.id) = some c := by
  induction l with
  | nil => simp [upsertChat, List.find?]
  | cons o rest ih =>
    simp only [upsertChat]
    by_cases ho : (o.id == c.id)
    · rw [if_pos ho]
      exact List.find?_cons_of_pos _ (by simp)
    · rw [if_neg ho]
      rw [List.find?_cons_of_neg _ (by simpa using ho)]
      exact ih

theorem upsertContact_pairwise_id {c : Contact} {l : List Contact}
    (h : l.Pairwise (fun a b => a.id ≠ b.id)) :
    (upsertContact c l).Pairwise (fun a b => a.id ≠ b.id) := by
  induction l with
  | nil => simp [upsertContact]
  | cons o rest ih =>
    rw [List.pairwise_cons] at h
    obtain ⟨ho, hrest⟩ := h
    simp only [upsertContact]
    by_cases he : (o.id == c.id)
    · rw [if_pos he, List.pairwise_cons]
      rw [beq_iff_eq] at he
      exact ⟨fun x hx => he ▸ ho x hx, hrest⟩
    · rw [if_neg he, List.pairwise_cons]
      have hne : o.id ≠ c.id := by simpa using he
      refine ⟨fun x hx => ?_, ih hrest⟩
      rcases mem_upsertContact hx with rfl | hx2
      · exact hne
      · exact ho x hx2

theorem upsertContact_pairwise_email {c : Contact} {l : List Contact}
    (hid : l.Pairwise (fun a b => a.id ≠ b.id))
    (hem : l.Pairwise (fun a b => a.email ≠ b.email))
    (hc : ∀ o ∈ l, o.id ≠ c.id → o.email ≠ c.email) :
    (upsertContact c l).Pairwise (fun a b => a.email ≠ b.email) := by
  induction l with
  | nil => simp [upsertContact]
  | cons o rest ih =>
    rw [List.pairwise_cons] at hid hem
    simp only [upsertContact]
    by_cases he : (o.id == c.id)
    · rw [if_pos he, List.pairwise_cons]
      rw [beq_iff_eq] at he
      refine ⟨fun x hx hq => ?_, hem.2⟩
      have hxid : x.id ≠ c.id := fun hxc => (hid.1 x hx) (by rw [he, hxc])
      exact hc x (List.mem_cons_of_mem _ hx) hxid hq.symm
    · rw [if_neg he, List.pairwise_cons]
      have hne : o.id ≠ c.id := by simpa using he
      refine ⟨fun x hx => ?_, ih hid.2 hem.2 (fun o2 ho2 => hc o2 (List.mem_cons_of_mem _ ho2))⟩
      rcases mem_upsertContact hx with rfl | hx2
      · exact hc o (List.mem_cons_self o rest) hne
      · exact hem.1 x hx2

theorem contactsWF_update {l : List Contact} {c : Contact} {n : Nat}
    (h : ContactsWF l n)
    (hem : ∀ o ∈ l, o.id ≠ c.id → o.email ≠ c.email) (hc : c.id < n) :
    ContactsWF (upsertContact c l) n := by
  refine ⟨upsertContact_pairwise_id h.1, upsertContact_pairwise_email h.1 h.2.1 hem, ?_⟩
  intro o ho
  rcases mem_upsertContact ho with rfl | h2
  · exact hc
  · exact h.2.2 o h2

theorem contactsWF_insert {l : List Contact} {c : Contact} {n : Nat}
    (h : ContactsWF l n)
    (hfresh : ∀ o ∈ l, o.id ≠ c.id)
    (hem : ∀ o ∈ l, o.email ≠ c.email) (hc : c.id < n) :
    ContactsWF (l ++ [c]) n := by
  obtain ⟨h1, h2, h3⟩ := h
  refine ⟨?_, ?_, ?_⟩
  · rw [List.pairwise_append]
    refine ⟨h1, List.pairwise_singleton _ _, ?_⟩
    intro a ha b hb
    rw [List.mem_singleton] at hb
    subst hb
    exact hfresh a ha
  · rw [List.pairwise_append]
    refine ⟨h2, List.pairwise_singleton _ _, ?_⟩
    intro a ha b hb
    rw [List.mem_singleton] at hb
    subst hb
    exact hem a ha
  · intro x hx
    rcases List.mem_append.mp hx with h4 | h4
    · exact h3 x h4
    · rw [List.mem_singleton] at h4
      subst h4
      exact hc

theorem contactRawSave_ok {s : Store} {c : Contact} (isNew : Bool)
    (h : emailConflict s.contacts c = false) :
    contactRawSave s c isNew =
      .ok { s with contacts := if isNew then s.contacts ++ [c] else upsertContact c s.contacts } := by
  unfold contactRawSave
  rw [if_neg (by simp [h])]

theorem contactRawSave_err {s : Store} {c : Contact} (isNew : Bool)
    (h : emailConflict s.contacts c = true) :
    contactRawSave s c isNew = .error "E11000 duplicate key error" := by
  unfold contactRawSave
  rw [if_pos (by simp [h])]

/-- Full unfolding of a successful `contactSave` on a contact without a
`chatId`: both raw writes succeed, one chat is appended and the contact is
stored again with the chat id written back. -/
theorem contactSave_ok_of_none (s : Store) (c : Contact) (now : Nat) (isNew : Bool)
    (hchat : c.chatId = none)
    (hconf1 : emailConflict s.contacts { c with updatedAt := now } = false)
    (hconf2 : emailConflict
      (if isNew then s.contacts ++ [{ c with updatedAt := now }]
       else upsertContact { c with updatedAt := now } s.contacts)
      { c with chatId := some s.nextId, updatedAt := now } = false) :
    contactSave s c now isNew =
      (⟨upsertContact { c with chatId := some s.nextId, updatedAt := now }
          (if isNew then s.contacts ++ [{ c with updatedAt := now }]
           else upsertContact { c with updatedAt := now } s.contacts),
        s.chats ++ [⟨s.nextId, c.id, [], none, 0, false, now, now⟩],
        s.messages, s.nextId + 1⟩,
       .ok { c with chatId := some s.nextId, updatedAt := now }) := by
  cases c with
  | mk cid cname cemail cphone cchat ccr cup =>
    simp only [Contact.chatId] at hchat
    subst hchat
    simp only [contactSave]
    rw [contactRawSave_ok isNew hconf1]
    simp only []
    rw [contactRawSave_ok false hconf2]
    rfl

/-- Unfolding of `contactSave` on a contact whose `chatId` is already set:
the post-save hook does nothing. -/
theorem contactSave_ok_of_some (s : Store) (c : Contact) (now : Nat) (isNew : Bool) (cid : Nat)
    (hchat : c.chatId = some cid)
    (hconf1 : emailConflict s.contacts { c with updatedAt := now } = false) :
    contactSave s c now isNew =
      (⟨(if isNew then s.contacts ++ [{ c with updatedAt := now }]
         else upsertContact { c with updatedAt := now } s.contacts),
        s.chats, s.messages, s.nextId⟩,
       .ok { c with updatedAt := now }) := by
  cases c with
  | mk ci cname cemail cphone cchat ccr cup =>
    simp only [Contact.chatId] at hchat
    subst hchat
    simp only [contactSave]
    rw [contactRawSave_ok isNew hconf1]

/-- Unfolding of `contactSave` when the first raw write hits the unique
email index: nothing changes. -/
theorem contactSave_err_first (s : Store) (c : Contact) (now : Nat) (isNew : Bool)
    (hconf1 : emailConflict s.contacts { c with updatedAt := now } = true) :
    contactSave s c now isNew = (s, .error "E11000 duplicate key error") := by
  simp only [contactSave]
  rw [contactRawSave_err isNew hconf1]

/-- Unfolding of `contactSave` when the inner write of the post-save hook
hits the unique email index: the chat already exists in the returned store
but the contact keeps its missing `chatId`. -/
theorem contactSave_err_inner (s : Store) (c : Contact) (now : Nat) (isNew : Bool)
    (hchat : c.chatId = none)
    (hconf1 : emailConflict s.contacts { c with updatedAt := now } = false)
    (hconf2 : emailConflict
      (if isNew then s.contacts ++ [{ c with updatedAt := now }]
       else upsertContact { c with updatedAt := now } s.contacts)
      { c with chatId := some s.nextId, updatedAt := now } = true) :
    contactSave s c now isNew =
      (⟨(if isNew then s.contacts ++ [{ c with updatedAt := now }]
         else upsertContact { c with updatedAt := now } s.contacts),
        s.chats ++ [⟨s.nextId, c.id, [], none, 0, false, now, now⟩],
        s.messages, s.nextId + 1⟩,
       .error "E11000 duplicate key error") := by
  cases c with
  | mk ci cname cemail cphone cchat ccr cup =>
    simp only [Contact.chatId] at hchat
    subst hchat
    simp only [contactSave]
    rw [contactRawSave_ok isNew hconf1]
    simp only []
    rw [contactRawSave_err false hconf2]

/-- A full `contactSave` preserves well-formedness of the contact collection,
whatever branch it takes. -/
theorem contactSave_wf (s : Store) (c : Contact) (now : Nat) (isNew : Bool)
    (hwf : ContactsWF s.contacts s.nextId)
    (hid : c.id < s.nextId)
    (hfresh : isNew = true → ∀ o ∈ s.contacts, o.id ≠ c.id) :
    ContactsWF (contactSave s c now isNew).1.contacts (contactSave s c now isNew).1.nextId := by
  have hl1 : emailConflict s.contacts { c with updatedAt := now } = false →
      ContactsWF (if isNew then s.contacts ++ [{ c with updatedAt := now }]
        else upsertContact { c with updatedAt := now } s.contacts) s.nextId := by
    intro hcf
    have hem := emailConflict_false_forall hcf
    cases isNew with
    | true =>
      simp only [if_true]
      refine contactsWF_insert hwf (fun o ho => hfresh rfl o ho) ?_ hid
      exact fun o ho => hem o ho (hfresh rfl o ho)
    | false =>
      simp only [Bool.false_eq_true, if_false]
      exact contactsWF_update hwf hem hid
  cases hch : c.chatId with
  | some cid0 =>
    cases hcf : emailConflict s.contacts { c with updatedAt := now } with
    | true =>
      rw [contactSave_err_first s c now isNew hcf]
      exact hwf
    | false =>
      rw [contactSave_ok_of_some s c now isNew cid0 hch hcf]
      exact hl1 hcf
  | none =>
    cases hcf : emailConflict s.contacts { c with updatedAt := now } with
    | true =>
      rw [contactSave_err_first s c now isNew hcf]
      exact hwf
    | false =>
      have hl1wf := hl1 hcf
      cases hcf2 : emailConflict
          (if isNew then s.contacts ++ [{ c with updatedAt := now }]
           else upsertContact { c with updatedAt := now } s.contacts)
          { c with chatId := some s.nextId, updatedAt := now } with
      | true =>
        rw [contactSave_err_inner s c now isNew hch hcf hcf2]
        exact contactsWF_mono hl1wf (Nat.le_succ _)
      | false =>
        rw [contactSave_ok_of_none s c now isNew hch hcf hcf2]
        refine contactsWF_update (contactsWF_mono hl1wf (Nat.le_succ _)) ?_ ?_
        · exact fun o ho hid2 => emailConflict_false_forall hcf2 o ho hid2
        · exact Nat.lt_succ_of_lt hid

/-! ## Frame facts: which handlers leave the contact collection alone -/

theorem getChatById_frame (s : Store) (id now : Nat) :
    (getChatById s id now).2.contacts = s.contacts ∧
    (getChatById s id now).2.nextId = s.nextId := by
  unfold getChatById
  split
  · exact ⟨rfl, rfl⟩
  · split
    · exact ⟨rfl, rfl⟩
    · exact ⟨rfl, rfl⟩

theorem deleteChat_frame (s : Store) (id : Nat) :
    (deleteChat s id).2.contacts = s.contacts ∧
    (deleteChat s id).2.nextId = s.nextId := by
  unfold deleteChat
  split
  · exact ⟨rfl, rfl⟩
  · exact ⟨rfl, rfl⟩

theorem getMessagesByChat_frame (s : Store) (cid now : Nat) (e : Option String) :
    (getMessagesByChat s cid now e).2.contacts = s.contacts ∧
    (getMessagesByChat s cid now e).2.nextId = s.nextId := by
  unfold getMessagesByChat
  split
  · exact ⟨rfl, rfl⟩
  · split
    · exact ⟨rfl, rfl⟩
    · split
      · exact ⟨rfl, rfl⟩
      · exact ⟨rfl, rfl⟩

theorem postChat_frame (s : Store) (p : ChatPayload) (now : Nat) :
    (postChat s p now).2.contacts = s.contacts ∧
    s.nextId ≤ (postChat s p now).2.nextId := by
  unfold postChat
  split
  · exact ⟨rfl, Nat.le_refl _⟩
  · split
    · exact ⟨rfl, Nat.le_refl _⟩
    · split
      · exact ⟨rfl, Nat.le_refl _⟩
      · exact ⟨rfl, Nat.le_succ _⟩

theorem postMessage_frame (s : Store) (p : MsgPayload) (coin : Bool) (now : Nat)
    (e : Option String) :
    (postMessage s p coin now e).2.contacts = s.contacts ∧
    s.nextId ≤ (postMessage s p coin now e).2.nextId := by
  unfold postMessage
  split
  · exact ⟨rfl, Nat.le_refl _⟩
  · split
    · exact ⟨rfl, Nat.le_refl _⟩
    · split
      · exact ⟨rfl, Nat.le_refl _⟩
      · exact ⟨rfl, Nat.le_succ _⟩

theorem postContact_wf (s : Store) (p : ContactPayload) (now : Nat) (e : Option String)
    (h : ContactsWF s.contacts s.nextId) :
    ContactsWF (postContact s p now e).2.contacts (postContact s p now e).2.nextId := by
  unfold postContact
  cases hv : contactValidate p with
  | error errs => exact h
  | ok d =>
    simp only []
    cases e with
    | some msg => exact h
    | none =>
      simp only []
      cases hfe : findContactByEmail s (normEmail d.email) with
      | some c0 => exact h
      | none =>
        simp only []
        have h0 : ContactsWF s.contacts (s.nextId + 1) := contactsWF_mono h (Nat.le_succ _)
        have hwf2 := contactSave_wf { s with nextId := s.nextId + 1 }
          { id := s.nextId, name := trimStr d.name, email := normEmail d.email,
            phone := trimStr d.phone, chatId := d.chatId, createdAt := now, updatedAt := now }
          now true h0 (Nat.lt_succ_self _)
          (fun _ o ho => Nat.ne_of_lt (h.2.2 o ho))
        rcases hsv : contactSave { s with nextId := s.nextId + 1 }
          { id := s.nextId, name := trimStr d.name, email := normEmail d.email,
            phone := trimStr d.phone, chatId := d.chatId, createdAt := now, updatedAt := now }
          now true with ⟨s1, r⟩
        rw [hsv] at hwf2
        cases r with
        | ok c2 => exact hwf2
        | error msg => exact hwf2

theorem putContact_wf (s : Store) (id : Nat) (p : ContactPayload) (now : Nat)
    (h : ContactsWF s.contacts s.nextId) :
    ContactsWF (putContact s id p now).2.contacts (putContact s id p now).2.nextId := by
  unfold putContact
  cases hv : contactValidate p with
  | error errs => exact h
  | ok d =>
    simp only []
    cases hfc : findContact s id with
    | none => exact h
    | some c =>
      simp only []
      have hmem : c ∈ s.contacts := List.mem_of_find?_eq_some hfc
      have hcid : c.id < s.nextId := h.2.2 c hmem
      have hwf2 := contactSave_wf s
        { c with name := trimStr d.name, email := normEmail d.email, phone := trimStr d.phone }
        now false h hcid (fun hfalse => absurd hfalse Bool.false_ne_true)
      rcases hsv : contactSave s
        { c with name := trimStr d.name, email := normEmail d.email, phone := trimStr d.phone }
        now false with ⟨s1, r⟩
      rw [hsv] at hwf2
      cases r with
      | ok c2 => exact hwf2
      | error msg => exact hwf2

theorem deleteContact_wf (s : Store) (id : Nat)
    (h : ContactsWF s.contacts s.nextId) :
    ContactsWF (deleteContact s id).2.contacts (deleteContact s id).2.nextId := by
  unfold deleteContact
  split
  · exact h
  · refine ⟨List.Pairwise.filter _ h.1, List.Pairwise.filter _ h.2.1, ?_⟩
    intro o ho
    exact h.2.2 o (List.mem_of_mem_filter ho)

theorem contactsWF_frame {s s' : Store} (h : ContactsWF s.contacts s.nextId)
    (hc : s'.contacts = s.contacts) (hn : s.nextId ≤ s'.nextId) :
    ContactsWF s'.contacts s'.nextId := by
  rw [hc]
  exact contactsWF_mono h hn

/-! ## Claim theorems -/

/-- C1: for every Contact that is saved without a `chatId`, the post-save
side effect (src/src/schema/contact.ts:56-71) creates exactly one Chat —
the chat collection grows by exactly one document, which references the
Contact and starts with `messageIds = []`, `unreadCount = 0`,
`lastMessage = none`, `isArchived = false` — and the generated Chat id is
written back into the stored Contact's `chatId` field.  The hypothesis says
the write does not collide with the unique email index. -/
theorem claim1_contact_save_provisions_one_chat
    (s : Store) (c : Contact) (now : Nat) (isNew : Bool)
    (hchat : c.chatId = none)
    (hemail : ∀ o ∈ s.contacts, o.id ≠ c.id → o.email ≠ c.email) :
    ∃ s3 c2, contactSave s c now isNew = (s3, .ok c2) ∧
      s3.chats = s.chats ++ [⟨s.nextId, c.id, [], none, 0, false, now, now⟩] ∧
      c2.chatId = some s.nextId ∧
      findContact s3 c.id = some c2 ∧
      s3.messages = s.messages := by
  have hconf1 : emailConflict s.contacts { c with updatedAt := now } = false :=
    emailConflict_eq_false (fun o ho hid => hemail o ho hid)
  have hl1 : ∀ o ∈ (if isNew then s.contacts ++ [{ c with updatedAt := now }]
      else upsertContact { c with updatedAt := now } s.contacts),
      o.id ≠ c.id → o.email ≠ c.email := by
    intro o ho hid
    cases isNew with
    | true =>
      simp only [if_true] at ho
      rcases List.mem_append.mp ho with h2 | h2
      · exact hemail o h2 hid
      · rw [List.mem_singleton] at h2
        subst h2
        exact absurd rfl hid
    | false =>
      simp only [Bool.false_eq_true, if_false] at ho
      rcases mem_upsertContact ho with rfl | h2
      · exact absurd rfl hid
      · exact hemail o h2 hid
  have hconf2 : emailConflict
      (if isNew then s.contacts ++ [{ c with updatedAt := now }]
       else upsertContact { c with updatedAt := now } s.contacts)
      { c with chatId := some s.nextId, updatedAt := now } = false :=
    emailConflict_eq_false (fun o ho hid => hl1 o ho hid)
  rw [contactSave_ok_of_none s c now isNew hchat hconf1 hconf2]
  refine ⟨_, _, rfl, rfl, rfl, ?_, rfl⟩
  simp only [findContact]
  exact find?_upsertContact_of_id _ _ _ rfl

theorem claim1_witness :
    ∃ s3 c2,
      contactSave ⟨[], [], [], 1⟩ ⟨0, "Ana", "ana@x.com", "123456789", none, 3, 3⟩ 5 true =
        (s3, .ok c2) ∧
      s3.chats = ([] : List Chat) ++ [⟨1, 0, [], none, 0, false, 5, 5⟩] ∧
      c2.chatId = some 1 ∧
      findContact s3 0 = some c2 ∧
      s3.messages = ([] : List Message) :=
  claim1_contact_save_provisions_one_chat
    ⟨[], [], [], 1⟩ ⟨0, "Ana", "ana@x.com", "123456789", none, 3, 3⟩ 5 true rfl
    (by intro o ho _; simp at ho)

/-- C6: the invariant that at most one stored Contact holds any given email
(together with the structural sanity of contact ids) is preserved by every
operation of the system — including `PUT /contacts/:id` changing a Contact's
email to one held by a different Contact, which the unique email index
rejects, leaving the store unchanged. -/
theorem claim6_email_uniqueness_preserved (s : Store) (now : Nat) (r : Req)
    (h : StoreWF s) : StoreWF (step s now r) := by
  rw [storeWF_iff] at h
  rw [storeWF_iff]
  cases r with
  | rPostContact p e => exact postContact_wf s p now e h
  | rGetContacts => exact h
  | rGetContact id => exact h
  | rPutContact id p => exact putContact_wf s id p now h
  | rDeleteContact id => exact deleteContact_wf s id h
  | rPostChat p =>
    have hf := postChat_frame s p now
    exact contactsWF_frame h hf.1 hf.2
  | rGetChats => exact h
  | rGetChat id =>
    have hf := getChatById_frame s id now
    exact contactsWF_frame h hf.1 (Nat.le_of_eq hf.2.symm)
  | rDeleteChat id =>
    have hf := deleteChat_frame s id
    exact contactsWF_frame h hf.1 (Nat.le_of_eq hf.2.symm)
  | rPostMessage p coin e =>
    have hf := postMessage_frame s p coin now e
    exact contactsWF_frame h hf.1 hf.2
  | rGetChatMessages cid e =>
    have hf := getMessagesByChat_frame s cid now e
    exact contactsWF_frame h hf.1 (Nat.le_of_eq hf.2.symm)

theorem claim6_witness :
    StoreWF ⟨[⟨0, "Ana", "ana@x.com", "123456789", some 1, 3, 3⟩,
              ⟨2, "Bob", "bob@x.com", "987654321", some 3, 4, 4⟩], [], [], 4⟩ ∧
    StoreWF (step ⟨[⟨0, "Ana", "ana@x.com", "123456789", some 1, 3, 3⟩,
                    ⟨2, "Bob", "bob@x.com", "987654321", some 3, 4, 4⟩], [], [], 4⟩ 9
      (Req.rPutContact 2 ⟨some "Bob", some "ana@x.com", some "987654321", none⟩)) := by
  have hwf : StoreWF ⟨[⟨0, "Ana", "ana@x.com", "123456789", some 1, 3, 3⟩,
      ⟨2, "Bob", "bob@x.com", "987654321", some 3, 4, 4⟩], [], [], 4⟩ := by
    refine ⟨?_, ?_, ?_⟩
    · simp [EmailUnique]
    · simp [ContactIdsOk]  
    · intro c hc
      simp at hc
      rcases hc with rfl | rfl <;> simp
  exact ⟨hwf, claim6_email_uniqueness_preserved _ 9 _ hwf⟩

theorem find?_upsertChat_of_id (c : Chat) (l : List Chat) (i : Nat)
    (h : c.id = i) :
    (upsertChat c l).find? (fun o => o.id == i) = some c := by
  subst h
  exact find?_upsertChat c l

theorem messageValidate_ok_chatId {p : MsgPayload} {coin : Bool} {m : MessageInput}
    (h : messageValidate p coin = .ok m) : p.chatId = some m.chatId := by
  unfold messageValidate at h
  split at h
  · next cid ctext h1 h2 h3 =>
    injection h with h4
    subst h4
    exact h2
  · exact absurd h (by simp)

/-- C2: a Message successfully posted to an existing Chat ends with that
Chat holding `lastMessage` equal to the new Message id, the id appended at
the tail of `messageIds`, and `unreadCount` exactly one greater than before
(src/src/index.ts:93-97 of the message router); the sequential model has no
concurrent writers. -/
theorem claim2_post_message_updates_chat (s : Store) (p : MsgPayload) (coin : Bool)
    (now : Nat) (m : MessageInput) (chat : Chat)
    (hv : messageValidate p coin = .ok m)
    (hc : findChat s m.chatId = some chat) :
    ∃ msg : Message,
      (postMessage s p coin now none).1 = .created msg ∧
      msg.id = s.nextId ∧
      findChat (postMessage s p coin now none).2 m.chatId =
        some { chat with messageIds := chat.messageIds ++ [msg.id],
                         lastMessage := some msg.id,
                         unreadCount := chat.unreadCount + 1,
                         updatedAt := now } ∧
      (postMessage s p coin now none).2.messages = s.messages ++ [msg] := by
  have hideq : chat.id = m.chatId := by
    have h0 := List.find?_some hc
    rwa [beq_iff_eq] at h0
  unfold postMessage
  rw [hv]
  simp only []
  rw [hc]
  simp only []
  refine ⟨_, rfl, rfl, ?_, rfl⟩
  simp only [chatUpdate, findChat]
  exact find?_upsertChat_of_id _ _ _ hideq

theorem claim2_witness :
    ∃ msg : Message,
      (postMessage ⟨[], [⟨1, 0, [], none, 0, false, 0, 0⟩], [], 2⟩
        ⟨some 1, some "hola", some true, none⟩ true 7 none).1 = .created msg ∧
      msg.id = 2 ∧
      findChat (postMessage ⟨[], [⟨1, 0, [], none, 0, false, 0, 0⟩], [], 2⟩
        ⟨some 1, some "hola", some true, none⟩ true 7 none).2 1 =
        some ⟨1, 0, [msg.id], some msg.id, 1, false, 0, 7⟩ ∧
      (postMessage ⟨[], [⟨1, 0, [], none, 0, false, 0, 0⟩], [], 2⟩
        ⟨some 1, some "hola", some true, none⟩ true 7 none).2.messages =
        [] ++ [msg] :=
  claim2_post_message_updates_chat ⟨[], [⟨1, 0, [], none, 0, false, 0, 0⟩], [], 2⟩
    ⟨some 1, some "hola", some true, none⟩ true 7
    ⟨1, "hola", true, none⟩ ⟨1, 0, [], none, 0, false, 0, 0⟩ rfl rfl

/-- C5: a `POST /messages` whose chatId resolves to no Chat answers 404 with
`details.chatId` echoing the chatId from the request, and creates no Message:
the store is unchanged (src/src/index.ts:76-83 of the message router). -/
theorem claim5_post_message_unknown_chat (s : Store) (p : MsgPayload) (coin : Bool)
    (now : Nat) (m : MessageInput)
    (hv : messageValidate p coin = .ok m)
    (hc : findChat s m.chatId = none) :
    postMessage s p coin now none = (.chatNotFound m.chatId, s) ∧
    p.chatId = some m.chatId ∧
    (PostMessageRes.chatNotFound m.chatId).status = 404 := by
  refine ⟨?_, messageValidate_ok_chatId hv, rfl⟩
  unfold postMessage
  rw [hv]
  simp only []
  rw [hc]

theorem claim5_witness :
    postMessage ⟨[], [], [], 0⟩ ⟨some 5, some "hi", some true, none⟩ true 3 none =
      (.chatNotFound 5, ⟨[], [], [], 0⟩) ∧
    (⟨some 5, some "hi", some true, none⟩ : MsgPayload).chatId = some 5 ∧
    (PostMessageRes.chatNotFound 5).status = 404 :=
  claim5_post_message_unknown_chat ⟨[], [], [], 0⟩ ⟨some 5, some "hi", some true, none⟩
    true 3 ⟨5, "hi", true, none⟩ rfl rfl

/-- C3 (counterexample): on a Chat stored with `unreadCount = 2`, the first
`GET /chats/:id` does NOT return the original count — the handler resets the
document before serialising it (src/src/router/chat.routes.ts:329-338), so
the response already carries `unreadCount = 0` while the claim asserts it
carries 2. -/
theorem claim3_counterexample :
    findChat ⟨[], [⟨1, 0, [], none, 2, false, 0, 0⟩], [], 2⟩ 1 =
      some ⟨1, 0, [], none, 2, false, 0, 0⟩ ∧
    (getChatById ⟨[], [⟨1, 0, [], none, 2, false, 0, 0⟩], [], 2⟩ 1 7).1 =
      .ok ⟨1, 0, [], none, 0, false, 0, 7⟩ none := by
  exact ⟨rfl, rfl⟩

/-- C3 (amended): fetching a Chat with positive `unreadCount` resets the
stored counter to 0 but returns the Chat with the counter already reset
(not the original value); a second fetch returns 0 again; and listing the
Chat's Messages performs the same stored reset
(src/src/router/chat.routes.ts:328-332, src/src/index.ts:291-295). -/
theorem claim3_unread_reset_on_read (s : Store) (id now now2 : Nat) (chat : Chat)
    (hc : findChat s id = some chat) (hu : 0 < chat.unreadCount) :
    (∃ ct, (getChatById s id now).1 =
      .ok { chat with unreadCount := 0, updatedAt := now } ct) ∧
    findChat (getChatById s id now).2 id =
      some { chat with unreadCount := 0, updatedAt := now } ∧
    (∃ ct2, (getChatById (getChatById s id now).2 id now2).1 =
      .ok { chat with unreadCount := 0, updatedAt := now } ct2) ∧
    findChat (getMessagesByChat s id now none).2 id =
      some { chat with unreadCount := 0, updatedAt := now } := by
  have hideq : chat.id = id := by
    have h0 := List.find?_some hc
    rwa [beq_iff_eq] at h0
  have hfound : findChat (getChatById s id now).2 id =
      some { chat with unreadCount := 0, updatedAt := now } := by
    unfold getChatById
    rw [hc]
    simp only []
    rw [if_pos hu]
    simp only [chatUpdate, findChat]
    exact find?_upsertChat_of_id _ _ _ hideq
  refine ⟨?_, hfound, ?_, ?_⟩
  · unfold getChatById
    rw [hc]
    simp only []
    rw [if_pos hu]
    exact ⟨_, rfl⟩
  · set s2 : Store := (getChatById s id now).2 with hs2
    unfold getChatById
    rw [hfound]
    simp only []
    rw [if_neg (by simp)]
    exact ⟨_, rfl⟩
  · unfold getMessagesByChat
    simp only []
    rw [hc]
    simp only []
    rw [if_pos hu]
    simp only [chatUpdate, findChat]
    exact find?_upsertChat_of_id _ _ _ hideq

theorem claim3_witness :
    (∃ ct, (getChatById ⟨[], [⟨1, 0, [], none, 2, false, 0, 0⟩], [], 2⟩ 1 7).1 =
      .ok ⟨1, 0, [], none, 0, false, 0, 7⟩ ct) ∧
    findChat (getChatById ⟨[], [⟨1, 0, [], none, 2, false, 0, 0⟩], [], 2⟩ 1 7).2 1 =
      some ⟨1, 0, [], none, 0, false, 0, 7⟩ ∧
    (∃ ct2, (getChatById (getChatById ⟨[], [⟨1, 0, [], none, 2, false, 0, 0⟩], [], 2⟩ 1 7).2 1 9).1 =
      .ok ⟨1, 0, [], none, 0, false, 0, 7⟩ ct2) ∧
    findChat (getMessagesByChat ⟨[], [⟨1, 0, [], none, 2, false, 0, 0⟩], [], 2⟩ 1 7 none).2 1 =
      some ⟨1, 0, [], none, 0, false, 0, 7⟩ :=
  claim3_unread_reset_on_read ⟨[], [⟨1, 0, [], none, 2, false, 0, 0⟩], [], 2⟩ 1 7 9
    ⟨1, 0, [], none, 2, false, 0, 0⟩ rfl (by decide)

/-- A successful `contactSave` leaves some stored contact carrying the saved
document's email. -/
theorem contactSave_ok_mem_email {s : Store} {c : Contact} {now : Nat} {isNew : Bool}
    {s1 : Store} {c2 : Contact}
    (h : contactSave s c now isNew = (s1, .ok c2)) :
    ∃ x ∈ s1.contacts, x.email = c.email := by
  cases hcf1 : emailConflict s.contacts { c with updatedAt := now } with
  | true =>
    rw [contactSave_err_first s c now isNew hcf1] at h
    simp at h
  | false =>
    cases hch : c.chatId with
    | some cid =>
      rw [contactSave_ok_of_some s c now isNew cid hch hcf1] at h
      rw [Prod.mk.injEq] at h
      obtain ⟨h1, h2⟩ := h
      subst h1
      refine ⟨{ c with updatedAt := now }, ?_, rfl⟩
      cases isNew with
      | true => simp
      | false => exact self_mem_upsertContact _ _
    | none =>
      cases hcf2 : emailConflict
          (if isNew then s.contacts ++ [{ c with updatedAt := now }]
           else upsertContact { c with updatedAt := now } s.contacts)
          { c with chatId := some s.nextId, updatedAt := now } with
      | true =>
        rw [contactSave_err_inner s c now isNew hch hcf1 hcf2] at h
        simp at h
      | false =>
        rw [contactSave_ok_of_none s c now isNew hch hcf1 hcf2] at h
        rw [Prod.mk.injEq] at h
        obtain ⟨h1, h2⟩ := h
        subst h1
        refine ⟨{ c with chatId := some s.nextId, updatedAt := now }, ?_, rfl⟩
        exact self_mem_upsertContact _ _

/-- C4: when two `POST /contacts` requests carry the same email and the
first one succeeds (201), the second answers 409 with the email in the
details and performs no write: the store it returns is exactly the store it
received (src/src/router/contact.ts:32-40). -/
theorem claim4_duplicate_email_second_post_409 (s s1 : Store) (p q : ContactPayload)
    (now now2 : Nat) (c : Contact) (d e : ContactInput)
    (hp : contactValidate p = .ok d) (hq : contactValidate q = .ok e)
    (hemail : e.email = d.email)
    (hrun : postContact s p now none = (.created c, s1)) :
    postContact s1 q now2 none = (.emailTaken e.email, s1) ∧
    (PostContactRes.emailTaken e.email).status = 409 := by
  refine ⟨?_, rfl⟩
  have hmem : ∃ x ∈ s1.contacts, x.email = normEmail d.email := by
    unfold postContact at hrun
    rw [hp] at hrun
    simp only [] at hrun
    cases hfe : findContactByEmail s (normEmail d.email) with
    | some c0 =>
      rw [hfe] at hrun
      simp at hrun
    | none =>
      rw [hfe] at hrun
      simp only [] at hrun
      rcases hsv : contactSave { s with nextId := s.nextId + 1 }
          { id := s.nextId, name := trimStr d.name, email := normEmail d.email,
            phone := trimStr d.phone, chatId := d.chatId, createdAt := now, updatedAt := now }
          now true with ⟨sA, r⟩
      rw [hsv] at hrun
      cases r with
      | error msg => simp at hrun
      | ok cB =>
        simp only [] at hrun
        rw [Prod.mk.injEq] at hrun
        obtain ⟨h1, h2⟩ := hrun
        subst h2
        exact contactSave_ok_mem_email hsv
  obtain ⟨x, hx, hxe⟩ := hmem
  unfold postContact
  rw [hq]
  simp only []
  have hfind : (findContactByEmail s1 (normEmail e.email)).isSome = true := by
    rw [hemail]
    unfold findContactByEmail
    rw [List.find?_isSome]
    exact ⟨x, hx, by rw [beq_iff_eq]; exact hxe⟩
  cases hfs : findContactByEmail s1 (normEmail e.email) with
  | none =>
    rw [hfs] at hfind
    simp at hfind
  | some y => rfl

theorem claim4_witness :
    postContact
      ⟨[⟨0, "Ana", "ana@x.com", "123456789", some 1, 1, 1⟩],
       [⟨1, 0, [], none, 0, false, 1, 1⟩], [], 2⟩
      ⟨some "Anita", some "ana@x.com", some "111111111", none⟩ 2 none =
      (.emailTaken "ana@x.com",
       ⟨[⟨0, "Ana", "ana@x.com", "123456789", some 1, 1, 1⟩],
        [⟨1, 0, [], none, 0, false, 1, 1⟩], [], 2⟩) ∧
    (PostContactRes.emailTaken "ana@x.com").status = 409 :=
  claim4_duplicate_email_second_post_409 ⟨[], [], [], 0⟩
    ⟨[⟨0, "Ana", "ana@x.com", "123456789", some 1, 1, 1⟩],
     [⟨1, 0, [], none, 0, false, 1, 1⟩], [], 2⟩
    ⟨some "Ana", some "ana@x.com", some "123456789", none⟩
    ⟨some "Anita", some "ana@x.com", some "111111111", none⟩ 1 2
    ⟨0, "Ana", "ana@x.com", "123456789", some 1, 1, 1⟩
    ⟨"Ana", "ana@x.com", "123456789", none⟩ ⟨"Anita", "ana@x.com", "111111111", none⟩
    rfl rfl rfl rfl

/-- C7 (code bug): for an id resolving to no stored Contact, the three
contact routes answer with the Elysia default status 200 — `GET` returns the
null `findById` result directly (src/src/router/contact.ts:218-221) and
`PUT`/`DELETE` return an error body without assigning `set.status`
(contact.ts:269-274, contact.ts:404-409) — although each route's own OpenAPI
`responses` block documents 404 for this case.  The claim (and the routes'
documentation) say 404; the handlers never set it. -/
theorem claim7_unresolved_contact_id_status_200 :
    (getContactById ⟨[], [], [], 0⟩ 42).status = 200 ∧
    (putContact ⟨[], [], [], 0⟩ 42
      ⟨some "Ana", some "ana@x.com", some "123456789", none⟩ 1).1.status = 200 ∧
    (deleteContact ⟨[], [], [], 0⟩ 42).1.status = 200 :=
  ⟨rfl, rfl, rfl⟩

/-- C8 (counterexample): a store failure inside `POST /messages` or
`POST /contacts` is answered with status 400, not the 500 the claim
asserts — both handlers' catch blocks set 400 unconditionally
(src/src/index.ts:106-112 of the message router, src/src/router/contact.ts:52). -/
theorem claim8_counterexample :
    (postMessage ⟨[], [], [], 0⟩ ⟨some 1, some "hola", some true, none⟩ true 0
      (some "connection lost")).1.status = 400 ∧
    (postContact ⟨[], [], [], 0⟩ ⟨some "Ana", some "ana@x.com", some "123456789", none⟩ 0
      (some "connection lost")).1.status = 400 ∧
    (400 : Nat) ≠ 500 :=
  ⟨rfl, rfl, by decide⟩

/-- C8 (amended): a store failure is surfaced as 500 by the read/list
handlers with their own try/catch (here `GET /messages/chat/:chatId`), but
`POST /messages` and `POST /contacts` catch every failure — store failures
included — and answer 400, not 500. -/
theorem claim8_store_failure_statuses (s : Store) (p : MsgPayload) (q : ContactPayload)
    (coin : Bool) (now cid : Nat) (e : String) :
    (postMessage s p coin now (some e)).1.status = 400 ∧
    (postContact s q now (some e)).1.status = 400 ∧
    (getMessagesByChat s cid now (some e)).1.status = 500 := by
  refine ⟨?_, ?_, rfl⟩
  · unfold postMessage
    cases hv : messageValidate p coin with
    | error errs => rfl
    | ok m => rfl
  · unfold postContact
    cases hv : contactValidate q with
    | error errs => rfl
    | ok d => rfl

/-- C9 (counterexample): validating the same Message payload lacking
`isContactMessage` twice is NOT deterministic — the zod default draws
`Math.random() > 0.5` (src/src/schema/message.ts:8), so the two runs
(modelled by the two coin outcomes) produce different typed records. -/
theorem claim9_counterexample :
    messageValidate ⟨some 1, some "hola", none, none⟩ true =
      .ok ⟨1, "hola", true, none⟩ ∧
    messageValidate ⟨some 1, some "hola", none, none⟩ false =
      .ok ⟨1, "hola", false, none⟩ ∧
    (⟨1, "hola", true, none⟩ : MessageInput) ≠ ⟨1, "hola", false, none⟩ :=
  ⟨rfl, rfl, by decide⟩

/-- C9 (amended): validation touches no store (the validators are functions
of the payload alone) and is deterministic whenever the payload carries
`isContactMessage`: the random draw is consumed only by the default of that
field. -/
theorem claim9_validation_deterministic_when_flag_present
    (p : MsgPayload) (b c1 c2 : Bool)
    (h : p.isContactMessage = some b) :
    messageValidate p c1 = messageValidate p c2 := by
  simp [messageValidate, h]

theorem claim9_witness :
    messageValidate ⟨some 1, some "hola", some true, none⟩ true =
      messageValidate ⟨some 1, some "hola", some true, none⟩ false :=
  claim9_validation_deterministic_when_flag_present
    ⟨some 1, some "hola", some true, none⟩ true true false rfl

/-- C10 (counterexample): a valid `PUT /contacts/:id` on a Contact whose
`chatId` is still unset does NOT leave `chatId` unchanged — the save inside
the handler fires the chat-provisioning post-save hook
(src/src/schema/contact.ts:56-71), which creates a Chat and writes its id
into the Contact. -/
theorem claim10_counterexample :
    findContact ⟨[⟨0, "Ana", "ana@x.com", "123456789", none, 0, 0⟩], [], [], 1⟩ 0 =
      some ⟨0, "Ana", "ana@x.com", "123456789", none, 0, 0⟩ ∧
    findContact (putContact ⟨[⟨0, "Ana", "ana@x.com", "123456789", none, 0, 0⟩], [], [], 1⟩
      0 ⟨some "Ana", some "ana@x.com", some "123456789", none⟩ 7).2 0 =
      some ⟨0, "Ana", "ana@x.com", "123456789", some 1, 0, 7⟩ :=
  ⟨rfl, rfl⟩

/-- C10 (amended): for every existing Contact whose `chatId` is already set,
`PUT /contacts/:id` leaves `id`, `chatId` and `createdAt` unchanged on the
stored Contact (only `name`, `email`, `phone`, `updatedAt` can change); a
Contact still awaiting chat provisioning additionally gets `chatId` set by
the save hook. -/
theorem claim10_put_frame (s : Store) (id now : Nat) (p : ContactPayload)
    (c : Contact) (cid0 : Nat)
    (hfind : findContact s id = some c) (hchat : c.chatId = some cid0) :
    ∃ c2, findContact (putContact s id p now).2 id = some c2 ∧
      c2.id = c.id ∧ c2.chatId = c.chatId ∧ c2.createdAt = c.createdAt := by
  have hid : c.id = id := by
    have h0 := List.find?_some hfind
    rwa [beq_iff_eq] at h0
  unfold putContact
  cases hv : contactValidate p with
  | error errs => exact ⟨c, hfind, rfl, rfl, rfl⟩
  | ok d =>
    simp only []
    rw [hfind]
    simp only []
    cases hcf : emailConflict s.contacts
        { c with name := trimStr d.name, email := normEmail d.email,
                 phone := trimStr d.phone, updatedAt := now } with
    | true =>
      rw [contactSave_err_first s
        { c with name := trimStr d.name, email := normEmail d.email, phone := trimStr d.phone }
        now false hcf]
      exact ⟨c, hfind, rfl, rfl, rfl⟩
    | false =>
      rw [contactSave_ok_of_some s
        { c with name := trimStr d.name, email := normEmail d.email, phone := trimStr d.phone }
        now false cid0 hchat hcf]
      simp only [Bool.false_eq_true, if_false]
      refine ⟨{ c with name := trimStr d.name, email := normEmail d.email,
                       phone := trimStr d.phone, updatedAt := now }, ?_, rfl, rfl, rfl⟩
      simp only [findContact]
      exact find?_upsertContact_of_id _ _ _ hid

theorem claim10_witness :
    ∃ c2, findContact (putContact
      ⟨[⟨0, "Ana", "ana@x.com", "123456789", some 1, 0, 0⟩],
       [⟨1, 0, [], none, 0, false, 0, 0⟩], [], 2⟩ 0
      ⟨some "Anna", some "anna@x.com", some "999999999", none⟩ 7).2 0 = some c2 ∧
      c2.id = 0 ∧ c2.chatId = some 1 ∧ c2.createdAt = 0 :=
  claim10_put_frame
    ⟨[⟨0, "Ana", "ana@x.com", "123456789", some 1, 0, 0⟩],
     [⟨1, 0, [], none, 0, false, 0, 0⟩], [], 2⟩ 0 7
    ⟨some "Anna", some "anna@x.com", some "999999999", none⟩
    ⟨0, "Ana", "ana@x.com", "123456789", some 1, 0, 0⟩ 1 rfl rfl
